import Mathlib

/-!
Verification of the SQLite ON CONFLICT statement-builder extension
(`lib/sqlalchemy/dialects/sqlite/dml.py`).

The module is embedded shallowly:

* Python objects that matter for the claims (the `Insert` builders) live in an
  explicit `Store`; an object reference is its index in the store, so object
  identity, in-place mutation and cloning are all observable.  A generative
  method call therefore takes the store and a builder reference and returns
  the updated store together with the reference of the builder it produced.
* A raised Python exception is an `Except.error`; a method that can raise
  returns the unchanged store paired with the error (the clone that
  `_generative` had already made is unreachable garbage at that point and is
  not modelled).
* `alias(...)` allocates a fresh object, so the store carries an allocation
  counter `next_alias_id` giving every constructed alias a distinct identity;
  memoization of the `excluded` namespace is thereby observable.

Code of the repository that the claims depend on but that is outside the
given sources (the `_generative` decorator, `util.memoized_property`,
`sqlalchemy.sql.expression.alias`, and the coercion service
`coercions.expect(roles.DMLColumnRole, key)`) is modelled from the spec; each
such definition says so in its doc comment.
-/

/-- A SQL value or expression node, as stored opaquely in SET values, WHERE
clauses and similar slots.  Only distinguishability matters for the claims. -/
inductive Expr where
  | column (table : String) (name : String)
  | lit (n : Int)
  | add (a b : Expr)
deriving DecidableEq, Repr

/-- An element of the `index_elements` sequence: a string column name, a
`Column` object, or another column expression. -/
inductive IndexElem where
  | name (s : String)
  | column (table : String) (col : String)
  | expr (e : Expr)
deriving DecidableEq, Repr

/-- A key of the `set_` mapping: a string column name or a `Column` handle. -/
inductive SetKey where
  | name (s : String)
  | column (table : String) (col : String)
deriving DecidableEq, Repr

/-- A canonical column reference, the output of the coercion service. -/
abbrev ColumnRef := String

/-- Error raised by the coercion service when a key cannot be resolved;
it records the offending key. -/
structure CoercionError where
  key : SetKey
deriving DecidableEq, Repr

/-- Errors that `on_conflict_do_update` can raise: the `ValueError` from its
own validation, or a resolution error propagated from the coercion service. -/
inductive DMLError where
  | valueError (msg : String)
  | coercionError (e : CoercionError)
deriving DecidableEq, Repr

/-- The possible shapes of the Python `set_` argument.  `isinstance(set_, dict)`
holds exactly for the `dict` shape: a `Mapping` instance that is not a `dict`
(for example `types.MappingProxyType`) is a `nonDictMapping` here.  Entries of
a dict are listed in insertion order, as Python dicts iterate them. -/
inductive SetArg where
  | noneArg
  | nonMapping
  | dict (entries : List (SetKey × Expr))
  | nonDictMapping (entries : List (SetKey × Expr))
deriving DecidableEq, Repr

/-- The keys of a `set_` argument, in iteration order (empty when the argument
is not a mapping at all). -/
def SetArg.keys : SetArg → List SetKey
  | .dict entries => entries.map Prod.fst
  | .nonDictMapping entries => entries.map Prod.fst
  | _ => []

/-- The target table bound to a builder. -/
structure Table where
  name : String
  columns : List String
deriving DecidableEq, Repr, Inhabited

/-- Modelled from the spec: the coercion service
(`coercions.expect(roles.DMLColumnRole, key)`, outside the given sources)
resolves a loosely-typed key — a string name or a column handle — into a
canonical column reference, failing with a resolution error when the key does
not name a column of the bound table.  `cols` is the column set it resolves
against. -/
def coerceAgainst (cols : List String) : SetKey → Except CoercionError ColumnRef
  | .name s => if cols.contains s then .ok s else .error ⟨.name s⟩
  | .column t c => if cols.contains c then .ok c else .error ⟨.column t c⟩

/-- Fields set by `OnConflictClause.__init__`: the conflict target. -/
structure OnConflictClause where
  constraint_target : Option String
  inferred_target_elements : Option (List IndexElem)
  inferred_target_whereclause : Option Expr
deriving DecidableEq, Repr

/-- `OnConflictClause.__init__`: if `index_elements is not None`, store the
elements and the `index_where` predicate and leave `constraint_target` unset;
otherwise set all three fields to `None`. -/
def OnConflictClause.init (index_elements : Option (List IndexElem))
    (index_where : Option Expr) : OnConflictClause :=
  match index_elements with
  | some els =>
      { constraint_target := none
        inferred_target_elements := some els
        inferred_target_whereclause := index_where }
  | none =>
      { constraint_target := none
        inferred_target_elements := none
        inferred_target_whereclause := none }

/-- `OnConflictDoNothing`: carries only the inherited conflict-target fields. -/
structure OnConflictDoNothing extends OnConflictClause
deriving DecidableEq, Repr

/-- `OnConflictDoNothing(index_elements, index_where)` delegates to
`OnConflictClause.__init__`. -/
def OnConflictDoNothing.init (index_elements : Option (List IndexElem))
    (index_where : Option Expr) : OnConflictDoNothing :=
  ⟨OnConflictClause.init index_elements index_where⟩

/-- `OnConflictDoUpdate`: the conflict target plus the SET assignments and the
optional DO UPDATE row filter. -/
structure OnConflictDoUpdate extends OnConflictClause where
  update_values_to_set : List (ColumnRef × Expr)
  update_whereclause : Option Expr
deriving DecidableEq, Repr

/-- Coerces every key of the SET entries in order, keeping values unchanged;
the first resolution error aborts the construction, as the raising list
comprehension does in the source. -/
def coercePairs (coerce : SetKey → Except CoercionError ColumnRef) :
    List (SetKey × Expr) → Except CoercionError (List (ColumnRef × Expr))
  | [] => .ok []
  | (k, v) :: rest =>
      match coerce k with
      | .error e => .error e
      | .ok c =>
          match coercePairs coerce rest with
          | .error e => .error e
          | .ok cs => .ok ((c, v) :: cs)

/-- `OnConflictDoUpdate.__init__`: builds the conflict target via the
superclass, raises `ValueError("set parameter must be a non-empty dictionary")`
when `not isinstance(set_, dict) or not set_`, then coerces every key of
`set_` in iteration order and stores `where` as `update_whereclause`.
`coerce` is the external coercion service. -/
def OnConflictDoUpdate.init (coerce : SetKey → Except CoercionError ColumnRef)
    (index_elements : Option (List IndexElem)) (index_where : Option Expr)
    (set_ : SetArg) (where_arg : Option Expr) :
    Except DMLError OnConflictDoUpdate :=
  let target := OnConflictClause.init index_elements index_where
  match set_ with
  | .dict entries =>
      if entries.isEmpty then
        .error (.valueError "set parameter must be a non-empty dictionary")
      else
        match coercePairs coerce entries with
        | .error e => .error (.coercionError e)
        | .ok vals =>
            .ok { toOnConflictClause := target
                  update_values_to_set := vals
                  update_whereclause := where_arg }
  | _ => .error (.valueError "set parameter must be a non-empty dictionary")

/-- The two conflict-action variants this module constructs. -/
inductive ConflictAction where
  | doNothing (c : OnConflictDoNothing)
  | doUpdate (c : OnConflictDoUpdate)
deriving DecidableEq, Repr

/-- The `__visit_name__` dispatch key the renderer uses on a conflict action. -/
def ConflictAction.visit_name : ConflictAction → String
  | .doNothing _ => "on_conflict_do_nothing"
  | .doUpdate _ => "on_conflict_do_update"

/-- The `excluded` namespace: the columns of a freshly constructed alias of
the target table under the name `excluded`.  `alias_id` is the allocation
identity of the underlying alias object. -/
structure ExcludedNamespace where
  alias_id : Nat
  alias_name : String
  columns : List String
deriving DecidableEq, Repr, Inhabited

/-- The per-instance state of a SQLite `Insert` builder: the bound table, the
optional `_post_values_clause`, and the `memoized_property` cache slot of
`excluded` (an entry of the instance `__dict__` once computed). -/
structure BuilderState where
  table : Table
  post_values_clause : Option ConflictAction
  excluded_cache : Option ExcludedNamespace
deriving DecidableEq, Repr, Inhabited

/-- The object store: builder instances addressed by index, plus the
allocation counter handing out alias identities. -/
structure Store where
  builders : List BuilderState
  next_alias_id : Nat
deriving DecidableEq, Repr, Inhabited

/-- Allocates a new builder object, returning its reference. -/
def Store.alloc (st : Store) (b : BuilderState) : Store × Nat :=
  ({ st with builders := st.builders ++ [b] }, st.builders.length)

/-- Modelled from the spec: the factory `insert(table)`
(`public_factory(Insert, ...)`, outside the given sources) binds a fresh
builder to a target relation, with no post-values clause and nothing cached. -/
def insert (st : Store) (t : Table) : Store × Nat :=
  st.alloc { table := t, post_values_clause := none, excluded_cache := none }

namespace Insert

/-- `Insert.on_conflict_do_nothing`, wrapped by `_generative`.  Modelled from
the spec: the `_generative` decorator (outside the given sources) shallow
copies the receiver — same table reference, same other fields — applies the
method body to the clone and returns the clone, leaving the receiver alone.
The body sets `_post_values_clause` to a fresh `OnConflictDoNothing`. -/
def on_conflict_do_nothing (st : Store) (ref : Nat)
    (index_elements : Option (List IndexElem)) (index_where : Option Expr) :
    Store × Nat :=
  let clone := st.builders.getD ref default
  st.alloc { clone with
    post_values_clause :=
      some (.doNothing (OnConflictDoNothing.init index_elements index_where)) }

/-- `Insert.on_conflict_do_update`, wrapped by `_generative` (see
`Insert.on_conflict_do_nothing` for the modelling of the decorator).  The body
sets `_post_values_clause` to a fresh `OnConflictDoUpdate`; when that
constructor raises, the exception propagates, no new builder is returned, and
the store of reachable objects is unchanged. -/
def on_conflict_do_update (coerce : SetKey → Except CoercionError ColumnRef)
    (st : Store) (ref : Nat)
    (index_elements : Option (List IndexElem)) (index_where : Option Expr)
    (set_ : SetArg) (where_arg : Option Expr) :
    Store × Except DMLError Nat :=
  match OnConflictDoUpdate.init coerce index_elements index_where set_
      where_arg with
  | .error e => (st, .error e)
  | .ok act =>
      let clone := st.builders.getD ref default
      let out := st.alloc { clone with
        post_values_clause := some (.doUpdate act) }
      (out.1, .ok out.2)

/-- `Insert.excluded`: returns `alias(self.table, name="excluded").columns`.
Modelled from the spec where the sources end: `util.memoized_property`
computes the value on first access, stores it in the instance `__dict__` and
returns the stored value on every later access, and `alias(...)` constructs a
fresh alias object (new identity) of the table under the given name, whose
`.columns` collection exposes the columns of that table. -/
def excluded (st : Store) (ref : Nat) : Store × ExcludedNamespace :=
  let b := st.builders.getD ref default
  match b.excluded_cache with
  | some ns => (st, ns)
  | none =>
      let ns : ExcludedNamespace :=
        { alias_id := st.next_alias_id
          alias_name := "excluded"
          columns := b.table.columns }
      ({ builders := st.builders.set ref { b with excluded_cache := some ns }
         next_alias_id := st.next_alias_id + 1 }, ns)

end Insert

/-- The assignment list as the spec describes it, written from the words of
§4.4: every supplied key resolved to its canonical column reference, values
kept unchanged, in the insertion order of the mapping.  `resolve` is the
always-succeeding view of the coercion service used when every key resolves. -/
def specUpdateValues (resolve : SetKey → ColumnRef)
    (entries : List (SetKey × Expr)) : List (ColumnRef × Expr) :=
  entries.map (fun kv => (resolve kv.1, kv.2))

/-- A sample bound table for concrete checks, shaped as the end-to-end example
of the spec: `T(id, name, count)`. -/
def tableW : Table := { name := "t", columns := ["id", "name", "count"] }

/-- The coercion service resolving against the columns of `tableW`. -/
def coerceW : SetKey → Except CoercionError ColumnRef :=
  coerceAgainst ["id", "name", "count"]

/-- The always-succeeding view of `coerceW` on keys that resolve. -/
def resolveW : SetKey → ColumnRef
  | .name s => s
  | .column _ c => c

/-- A store holding one freshly created builder (reference 0) bound to
`tableW`. -/
def storeW : Store :=
  { builders := [{ table := tableW
                   post_values_clause := none
                   excluded_cache := none }]
    next_alias_id := 0 }

/-- The action that `on_conflict_do_update(index_elements=["id"],
index_where=<lit 0>, set_={"count": 3})` constructs against `coerceW`; used by
concrete checks. -/
def actTargetW : OnConflictDoUpdate :=
  { constraint_target := none
    inferred_target_elements := some [.name "id"]
    inferred_target_whereclause := some (.lit 0)
    update_values_to_set := [("count", .lit 3)]
    update_whereclause := none }

/-- The action that `on_conflict_do_update(index_elements=[],
index_where=<lit 0>, set_={"id": 5})` constructs against `coerceW`: the empty
sequence still selects the inferred target mode.  Used by concrete checks. -/
def actEmptyElementsW : OnConflictDoUpdate :=
  { constraint_target := none
    inferred_target_elements := some []
    inferred_target_whereclause := some (.lit 0)
    update_values_to_set := [("id", .lit 5)]
    update_whereclause := none }

/-! Helper lemmas about the store shape. -/

theorem take_append_self (l : List α) (x : α) :
    (l ++ [x]).take l.length = l := by
  induction l with
  | nil => simp
  | cons a t ih => simp [ih]

theorem getD_append_self (l : List α) (x : α) (d : α) :
    (l ++ [x]).getD l.length d = x := by
  induction l with
  | nil => simp [List.getD]
  | cons a t ih => simp only [List.length_cons, List.cons_append, List.getD_cons_succ]; exact ih

theorem getD_set_self (l : List α) (i : Nat) (x : α) (d : α)
    (h : i < l.length) : (l.set i x).getD i d = x := by
  induction l generalizing i with
  | nil => simp at h
  | cons a t ih =>
    cases i with
    | zero => simp [List.getD]
    | succ j =>
      simp only [List.length_cons, Nat.succ_lt_succ_iff] at h
      simpa [List.getD] using ih j h

theorem coercePairs_all_ok (coerce : SetKey → Except CoercionError ColumnRef)
    (resolve : SetKey → ColumnRef) (entries : List (SetKey × Expr))
    (h : ∀ kv ∈ entries, coerce kv.1 = .ok (resolve kv.1)) :
    coercePairs coerce entries = .ok (specUpdateValues resolve entries) := by
  induction entries with
  | nil => rfl
  | cons kv rest ih =>
    obtain ⟨k, v⟩ := kv
    have hk := h (k, v) (List.mem_cons_self _ _)
    have hrest := ih (fun kv hkv => h kv (List.mem_cons_of_mem _ hkv))
    simp [coercePairs, hk, hrest, specUpdateValues]

theorem coercePairs_error (coerce : SetKey → Except CoercionError ColumnRef)
    (entries : List (SetKey × Expr)) (e : CoercionError)
    (h : coercePairs coerce entries = .error e) :
    ∃ k ∈ entries.map Prod.fst, coerce k = .error e := by
  induction entries with
  | nil => simp [coercePairs] at h
  | cons kv rest ih =>
    obtain ⟨k, v⟩ := kv
    simp only [coercePairs] at h
    cases hk : coerce k with
    | error e' =>
      rw [hk] at h
      cases h
      exact ⟨k, by simp, hk⟩
    | ok c =>
      rw [hk] at h
      cases hrest : coercePairs coerce rest with
      | error e' =>
        rw [hrest] at h
        cases h
        obtain ⟨k', hk', hc⟩ := ih hrest
        exact ⟨k', by simp [hk'], hc⟩
      | ok cs => rw [hrest] at h; cases h

theorem OnConflictDoUpdate.init_ok_inversion
    (coerce : SetKey → Except CoercionError ColumnRef)
    (ie : Option (List IndexElem)) (iw : Option Expr) (s : SetArg)
    (w : Option Expr) (act : OnConflictDoUpdate)
    (h : OnConflictDoUpdate.init coerce ie iw s w = .ok act) :
    act.toOnConflictClause = OnConflictClause.init ie iw
    ∧ act.update_whereclause = w
    ∧ ∃ entries, s = .dict entries ∧ entries ≠ []
        ∧ coercePairs coerce entries = .ok act.update_values_to_set := by
  cases s with
  | dict entries =>
    simp only [OnConflictDoUpdate.init] at h
    by_cases he : entries.isEmpty
    · simp [he] at h
    · simp only [he, Bool.false_eq_true, if_false] at h
      cases hcp : coercePairs coerce entries with
      | error e => rw [hcp] at h; cases h
      | ok vals =>
        rw [hcp] at h
        cases h
        refine ⟨rfl, rfl, entries, rfl, ?_, hcp⟩
        intro hnil
        exact he (by simp [hnil])
  | noneArg => simp [OnConflictDoUpdate.init] at h
  | nonMapping => simp [OnConflictDoUpdate.init] at h
  | nonDictMapping entries => simp [OnConflictDoUpdate.init] at h

theorem OnConflictDoUpdate.init_coercion_error_inversion
    (coerce : SetKey → Except CoercionError ColumnRef)
    (ie : Option (List IndexElem)) (iw : Option Expr) (s : SetArg)
    (w : Option Expr) (ce : CoercionError)
    (h : OnConflictDoUpdate.init coerce ie iw s w
        = .error (.coercionError ce)) :
    ∃ entries, s = .dict entries ∧ coercePairs coerce entries = .error ce := by
  cases s with
  | dict entries =>
    simp only [OnConflictDoUpdate.init] at h
    by_cases he : entries.isEmpty
    · simp [he] at h
    · simp only [he, Bool.false_eq_true, if_false] at h
      cases hcp : coercePairs coerce entries with
      | error e => rw [hcp] at h; cases h; exact ⟨entries, rfl, hcp⟩
      | ok vals => rw [hcp] at h; cases h
  | noneArg => simp [OnConflictDoUpdate.init] at h
  | nonMapping => simp [OnConflictDoUpdate.init] at h
  | nonDictMapping entries => simp [OnConflictDoUpdate.init] at h

/-- C1: a generative conflict-configuration call leaves the receiver — and
every other already-allocated builder — untouched: the store prefix of
pre-existing builders is unchanged by both methods, so a builder with no
post-values clause before the call still has none afterwards; only the newly
returned builder carries the constructed conflict action, and it keeps every
other field (table, memoized cache) of the receiver. -/
theorem generative_calls_leave_receiver_unchanged
    (coerce : SetKey → Except CoercionError ColumnRef) (st : Store) (ref : Nat)
    (ie : Option (List IndexElem)) (iw : Option Expr) (s : SetArg)
    (w : Option Expr) :
    ((Insert.on_conflict_do_nothing st ref ie iw).1.builders.take
        st.builders.length = st.builders)
    ∧ ((Insert.on_conflict_do_nothing st ref ie iw).1.builders.getD
        (Insert.on_conflict_do_nothing st ref ie iw).2 default
        = { st.builders.getD ref default with
            post_values_clause :=
              some (.doNothing (OnConflictDoNothing.init ie iw)) })
    ∧ ((Insert.on_conflict_do_update coerce st ref ie iw s w).1.builders.take
        st.builders.length = st.builders)
    ∧ (∀ act, OnConflictDoUpdate.init coerce ie iw s w = .ok act →
        (Insert.on_conflict_do_update coerce st ref ie iw s w).1.builders.getD
          st.builders.length default
          = { st.builders.getD ref default with
              post_values_clause := some (.doUpdate act) }) := by
  refine ⟨?_, ?_, ?_, ?_⟩
  · simp [Insert.on_conflict_do_nothing, Store.alloc, take_append_self]
  · simp [Insert.on_conflict_do_nothing, Store.alloc, getD_append_self]
  · cases hinit : OnConflictDoUpdate.init coerce ie iw s w with
    | error e => simp [Insert.on_conflict_do_update, hinit]
    | ok act =>
      simp [Insert.on_conflict_do_update, hinit, Store.alloc, take_append_self]
  · intro act hact
    simp [Insert.on_conflict_do_update, hact, Store.alloc, getD_append_self]

/-- Concrete instance of the C1 theorem: in a one-builder store, a successful
`on_conflict_do_update` allocates the new builder at reference 1, which copies
the receiver with only the post-values clause replaced. -/
theorem generative_calls_leave_receiver_unchanged_witness :
    (Insert.on_conflict_do_update coerceW storeW 0 none none
        (.dict [(.name "name", .lit 7)]) none).1.builders.getD
        storeW.builders.length default
      = { storeW.builders.getD 0 default with
          post_values_clause := some (.doUpdate
            { constraint_target := none
              inferred_target_elements := none
              inferred_target_whereclause := none
              update_values_to_set := [("name", .lit 7)]
              update_whereclause := none }) } :=
  (generative_calls_leave_receiver_unchanged coerceW storeW 0 none none
      (.dict [(.name "name", .lit 7)]) none).2.2.2 _ rfl

/-- C2: the code rejects every `set_` that is not literally a `dict`, although
its own docstring admits "a dictionary or other mapping object".  Evaluated
here: a non-empty non-dict mapping (for example
`types.MappingProxyType({"name": 1})`, whose key resolves fine) raises the
Invalid-Assignment-Set `ValueError`; the rest of the claim does hold — `None`
and `{}` raise the same error and a non-empty dict is accepted. -/
theorem on_conflict_do_update_rejects_non_dict_mapping :
    OnConflictDoUpdate.init coerceW none none
        (.nonDictMapping [(.name "name", .lit 1)]) none
      = .error (.valueError "set parameter must be a non-empty dictionary")
    ∧ OnConflictDoUpdate.init coerceW none none .noneArg none
      = .error (.valueError "set parameter must be a non-empty dictionary")
    ∧ OnConflictDoUpdate.init coerceW none none (.dict []) none
      = .error (.valueError "set parameter must be a non-empty dictionary")
    ∧ OnConflictDoUpdate.init coerceW none none
        (.dict [(.name "name", .lit 1)]) none
      = .ok { constraint_target := none
              inferred_target_elements := none
              inferred_target_whereclause := none
              update_values_to_set := [("name", .lit 1)]
              update_whereclause := none } :=
  ⟨rfl, rfl, rfl, rfl⟩

/-- C3: target-mode exclusivity for every action built by the two entry
points: with `index_elements` supplied the constraint target is unset and the
inferred elements and where-clause are stored verbatim; with `index_elements`
omitted all three target fields are unset, even when an `index_where` was
given. -/
theorem conflict_target_mode
    (coerce : SetKey → Except CoercionError ColumnRef) (els : List IndexElem)
    (iw : Option Expr) (s : SetArg) (w : Option Expr) :
    ((OnConflictDoNothing.init (some els) iw).constraint_target = none
      ∧ (OnConflictDoNothing.init (some els) iw).inferred_target_elements
          = some els
      ∧ (OnConflictDoNothing.init (some els) iw).inferred_target_whereclause
          = iw)
    ∧ ((OnConflictDoNothing.init none iw).constraint_target = none
      ∧ (OnConflictDoNothing.init none iw).inferred_target_elements = none
      ∧ (OnConflictDoNothing.init none iw).inferred_target_whereclause = none)
    ∧ (∀ act, OnConflictDoUpdate.init coerce (some els) iw s w = .ok act →
        act.constraint_target = none
        ∧ act.inferred_target_elements = some els
        ∧ act.inferred_target_whereclause = iw)
    ∧ (∀ act, OnConflictDoUpdate.init coerce none iw s w = .ok act →
        act.constraint_target = none
        ∧ act.inferred_target_elements = none
        ∧ act.inferred_target_whereclause = none) := by
  refine ⟨⟨rfl, rfl, rfl⟩, ⟨rfl, rfl, rfl⟩, ?_, ?_⟩
  · intro act hact
    have h := (OnConflictDoUpdate.init_ok_inversion coerce (some els) iw s w
      act hact).1
    rw [show act.constraint_target = act.toOnConflictClause.constraint_target
        from rfl, h]
    exact ⟨rfl, rfl, rfl⟩
  · intro act hact
    have h := (OnConflictDoUpdate.init_ok_inversion coerce none iw s w
      act hact).1
    rw [show act.constraint_target = act.toOnConflictClause.constraint_target
        from rfl, h]
    exact ⟨rfl, rfl, rfl⟩

/-- Concrete instance of the C3 theorem: a do-update action built with
`index_elements=["id"]` and an `index_where` predicate stores exactly those in
the inferred-mode fields and leaves the constraint target unset. -/
theorem conflict_target_mode_witness :
    (OnConflictDoNothing.init (some [.name "id"])
        (some (.lit 0))).constraint_target = none
    ∧ (actTargetW.constraint_target = none
       ∧ actTargetW.inferred_target_elements = some [.name "id"]
       ∧ actTargetW.inferred_target_whereclause = some (.lit 0)) :=
  ⟨(conflict_target_mode coerceW [.name "id"] (some (.lit 0))
      (.dict [(.name "count", .lit 3)]) none).1.1,
   (conflict_target_mode coerceW [.name "id"] (some (.lit 0))
      (.dict [(.name "count", .lit 3)]) none).2.2.1 actTargetW rfl⟩

/-- C4: for every accepted mapping whose keys all resolve, the assignment list
of the constructed action is exactly the spec-side description
`specUpdateValues`: each key replaced by its canonical column reference, each
value kept unchanged, in the insertion order of the mapping. -/
theorem update_values_preserve_insertion_order
    (coerce : SetKey → Except CoercionError ColumnRef)
    (resolve : SetKey → ColumnRef) (entries : List (SetKey × Expr))
    (ie : Option (List IndexElem)) (iw : Option Expr) (w : Option Expr)
    (hne : entries ≠ [])
    (hok : ∀ kv ∈ entries, coerce kv.1 = .ok (resolve kv.1)) :
    OnConflictDoUpdate.init coerce ie iw (.dict entries) w
      = .ok { toOnConflictClause := OnConflictClause.init ie iw
              update_values_to_set := specUpdateValues resolve entries
              update_whereclause := w } := by
  have he : entries.isEmpty = false := by
    cases entries with
    | nil => exact absurd rfl hne
    | cons a t => rfl
  simp [OnConflictDoUpdate.init, he,
    coercePairs_all_ok coerce resolve entries hok]

/-- Concrete instance of the C4 theorem, matching the example of the claim:
`set_={"name": 2, "id": 1}` (in that insertion order) yields the pair for
`name` before the pair for `id`, values unchanged, keys coerced. -/
theorem update_values_preserve_insertion_order_witness :
    OnConflictDoUpdate.init coerceW none none
        (.dict [(.name "name", .lit 2), (.name "id", .lit 1)]) none
      = .ok { constraint_target := none
              inferred_target_elements := none
              inferred_target_whereclause := none
              update_values_to_set := [("name", .lit 2), ("id", .lit 1)]
              update_whereclause := none } :=
  update_values_preserve_insertion_order coerceW resolveW
    [(.name "name", .lit 2), (.name "id", .lit 1)] none none none
    (by simp) (by intro kv hkv; fin_cases hkv <;> rfl)

/-- C5: chaining two conflict-configuration calls on the same lineage leaves
the final builder holding exactly the action of the last call, never a merge:
after `do_nothing` then a successful `do_update`, the final post-values clause
is the do-update action alone; after `do_update` then `do_nothing`, it is the
do-nothing action alone. -/
theorem chained_conflict_calls_last_write_wins
    (coerce : SetKey → Except CoercionError ColumnRef) (st : Store) (ref : Nat)
    (ie1 ie2 : Option (List IndexElem)) (iw1 iw2 : Option Expr) (s : SetArg)
    (w : Option Expr) (act : OnConflictDoUpdate)
    (h : OnConflictDoUpdate.init coerce ie2 iw2 s w = .ok act) :
    ((Insert.on_conflict_do_update coerce
        (Insert.on_conflict_do_nothing st ref ie1 iw1).1
        (Insert.on_conflict_do_nothing st ref ie1 iw1).2 ie2 iw2 s w).2
      = .ok (Insert.on_conflict_do_nothing st ref ie1 iw1).1.builders.length)
    ∧ (((Insert.on_conflict_do_update coerce
          (Insert.on_conflict_do_nothing st ref ie1 iw1).1
          (Insert.on_conflict_do_nothing st ref ie1 iw1).2 ie2 iw2 s
          w).1.builders.getD
          (Insert.on_conflict_do_nothing st ref ie1 iw1).1.builders.length
          default).post_values_clause
        = some (.doUpdate act))
    ∧ (((Insert.on_conflict_do_nothing
          (Insert.on_conflict_do_update coerce st ref ie2 iw2 s w).1
          st.builders.length ie1 iw1).1.builders.getD
          (Insert.on_conflict_do_nothing
            (Insert.on_conflict_do_update coerce st ref ie2 iw2 s w).1
            st.builders.length ie1 iw1).2
          default).post_values_clause
        = some (.doNothing (OnConflictDoNothing.init ie1 iw1))) := by
  refine ⟨?_, ?_, ?_⟩
  · simp [Insert.on_conflict_do_update, h, Store.alloc]
  · simp [Insert.on_conflict_do_update, h, Store.alloc, getD_append_self]
  · simp [Insert.on_conflict_do_nothing, Store.alloc, getD_append_self]

/-- Concrete instance of the C5 theorem: on the one-builder store, calling
`on_conflict_do_nothing` and then `on_conflict_do_update(set_={"id": 5})`
leaves the final builder carrying exactly the do-update action. -/
theorem chained_conflict_calls_last_write_wins_witness :
    ((Insert.on_conflict_do_update coerceW
        (Insert.on_conflict_do_nothing storeW 0 none none).1
        (Insert.on_conflict_do_nothing storeW 0 none none).2 none none
        (.dict [(.name "id", .lit 5)]) none).1.builders.getD
        (Insert.on_conflict_do_nothing storeW 0
          none none).1.builders.length default).post_values_clause
      = some (.doUpdate
          { constraint_target := none
            inferred_target_elements := none
            inferred_target_whereclause := none
            update_values_to_set := [("id", .lit 5)]
            update_whereclause := none }) :=
  (chained_conflict_calls_last_write_wins coerceW storeW 0 none none none none
      (.dict [(.name "id", .lit 5)]) none _ rfl).2.1

/-- C6: when `on_conflict_do_update` fails, the store of builders is exactly
what it was — the caller keeps a valid, unchanged builder and no incompletely
validated do-update action is attached to any builder — and a
coercion error is precisely a resolution error of the coercion service on one
of the supplied SET keys, propagated unchanged. -/
theorem failed_update_leaves_builders_unchanged
    (coerce : SetKey → Except CoercionError ColumnRef) (st : Store) (ref : Nat)
    (ie : Option (List IndexElem)) (iw : Option Expr) (s : SetArg)
    (w : Option Expr) (e : DMLError)
    (h : (Insert.on_conflict_do_update coerce st ref ie iw s w).2
        = .error e) :
    (Insert.on_conflict_do_update coerce st ref ie iw s w).1 = st
    ∧ ∀ ce, e = .coercionError ce →
        ∃ k, k ∈ SetArg.keys s ∧ coerce k = .error ce := by
  cases hinit : OnConflictDoUpdate.init coerce ie iw s w with
  | ok act => simp [Insert.on_conflict_do_update, hinit] at h
  | error e' =>
    have he : e' = e := by
      simpa [Insert.on_conflict_do_update, hinit] using h
    subst he
    refine ⟨by simp [Insert.on_conflict_do_update, hinit], ?_⟩
    rintro ce rfl
    obtain ⟨entries, rfl, hcp⟩ :=
      OnConflictDoUpdate.init_coercion_error_inversion coerce ie iw s w ce
        hinit
    obtain ⟨k, hk, hke⟩ := coercePairs_error coerce entries ce hcp
    exact ⟨k, by simpa [SetArg.keys] using hk, hke⟩

/-- Concrete instance of the C6 theorem: `set_={"zzz": 1}` makes the coercion
service fail on key `zzz`; the call reports that resolution error and the
one-builder store is unchanged. -/
theorem failed_update_leaves_builders_unchanged_witness :
    (Insert.on_conflict_do_update coerceW storeW 0 none none
        (.dict [(.name "zzz", .lit 1)]) none).1 = storeW
    ∧ ∃ k, k ∈ SetArg.keys (.dict [(.name "zzz", .lit 1)])
        ∧ coerceW k = .error ⟨.name "zzz"⟩ :=
  ⟨(failed_update_leaves_builders_unchanged coerceW storeW 0 none none
      (.dict [(.name "zzz", .lit 1)]) none
      (.coercionError ⟨.name "zzz"⟩) rfl).1,
   (failed_update_leaves_builders_unchanged coerceW storeW 0 none none
      (.dict [(.name "zzz", .lit 1)]) none
      (.coercionError ⟨.name "zzz"⟩) rfl).2 ⟨.name "zzz"⟩ rfl⟩

/-- C7: the excluded accessor is memoized.  On a valid builder reference, the
first access leaves the computed namespace in the cache slot of that builder,
and a second access returns the identical namespace (same underlying alias
identity) while changing nothing — in particular no further alias is
allocated, so the computation runs at most once per builder instance. -/
theorem excluded_memoized (st : Store) (ref : Nat)
    (h : ref < st.builders.length) :
    ((Insert.excluded st ref).1.builders.getD ref default).excluded_cache
        = some (Insert.excluded st ref).2
    ∧ (Insert.excluded (Insert.excluded st ref).1 ref).2
        = (Insert.excluded st ref).2
    ∧ (Insert.excluded (Insert.excluded st ref).1 ref).1
        = (Insert.excluded st ref).1 := by
  cases hc : (st.builders.getD ref default).excluded_cache with
  | some ns =>
    simp only [Insert.excluded, hc]
    exact ⟨trivial, trivial, trivial⟩
  | none =>
    simp only [Insert.excluded, hc]
    rw [getD_set_self st.builders ref _ default h]
    exact ⟨rfl, rfl, rfl⟩

/-- Concrete instance of the C7 theorem on the one-builder store. -/
theorem excluded_memoized_witness :
    ((Insert.excluded storeW 0).1.builders.getD 0 default).excluded_cache
        = some (Insert.excluded storeW 0).2
    ∧ (Insert.excluded (Insert.excluded storeW 0).1 0).2
        = (Insert.excluded storeW 0).2
    ∧ (Insert.excluded (Insert.excluded storeW 0).1 0).1
        = (Insert.excluded storeW 0).1 :=
  excluded_memoized storeW 0 (by decide)

/-- C8: `on_conflict_do_nothing` is total — it raises nothing for any choice
of arguments — and always returns a fresh builder whose post-values clause is
a do-nothing action that is fully determined by (and carries nothing beyond)
the conflict target built from the given arguments. -/
theorem do_nothing_always_succeeds (st : Store) (ref : Nat)
    (ie : Option (List IndexElem)) (iw : Option Expr) :
    (Insert.on_conflict_do_nothing st ref ie iw).2 = st.builders.length
    ∧ (Insert.on_conflict_do_nothing st ref ie iw).1.builders.getD
        st.builders.length default
      = { st.builders.getD ref default with
          post_values_clause :=
            some (.doNothing (OnConflictDoNothing.init ie iw)) }
    ∧ (OnConflictDoNothing.init ie iw).toOnConflictClause
        = OnConflictClause.init ie iw := by
  refine ⟨rfl, ?_, rfl⟩
  simp [Insert.on_conflict_do_nothing, Store.alloc, getD_append_self]

/-- C9: every conflict action carries its stable dispatch key: any do-nothing
action dispatches as `on_conflict_do_nothing`, any do-update action as
`on_conflict_do_update`; the clause attached by each builder method carries
the corresponding key, and no action dispatches under any other key. -/
theorem conflict_action_dispatch_keys
    (coerce : SetKey → Except CoercionError ColumnRef) (st : Store) (ref : Nat)
    (ie : Option (List IndexElem)) (iw : Option Expr) (s : SetArg)
    (w : Option Expr) :
    (∀ nd : OnConflictDoNothing,
      (ConflictAction.doNothing nd).visit_name = "on_conflict_do_nothing")
    ∧ (∀ du : OnConflictDoUpdate,
      (ConflictAction.doUpdate du).visit_name = "on_conflict_do_update")
    ∧ (((Insert.on_conflict_do_nothing st ref ie iw).1.builders.getD
          (Insert.on_conflict_do_nothing st ref ie iw).2
          default).post_values_clause.map ConflictAction.visit_name
        = some "on_conflict_do_nothing")
    ∧ (∀ r, (Insert.on_conflict_do_update coerce st ref ie iw s w).2 = .ok r →
        ((Insert.on_conflict_do_update coerce st ref ie iw s
            w).1.builders.getD r default).post_values_clause.map
            ConflictAction.visit_name
          = some "on_conflict_do_update")
    ∧ (∀ a : ConflictAction, a.visit_name = "on_conflict_do_nothing"
        ∨ a.visit_name = "on_conflict_do_update") := by
  refine ⟨fun _ => rfl, fun _ => rfl, ?_, ?_, ?_⟩
  · simp [Insert.on_conflict_do_nothing, Store.alloc, getD_append_self,
      ConflictAction.visit_name]
  · intro r hr
    cases hinit : OnConflictDoUpdate.init coerce ie iw s w with
    | error e => simp [Insert.on_conflict_do_update, hinit] at hr
    | ok act =>
      have : st.builders.length = r := by
        simpa [Insert.on_conflict_do_update, hinit, Store.alloc] using hr
      subst this
      simp [Insert.on_conflict_do_update, hinit, Store.alloc,
        getD_append_self, ConflictAction.visit_name]
  · intro a
    cases a with
    | doNothing nd => exact Or.inl rfl
    | doUpdate du => exact Or.inr rfl

/-- Concrete instance of the C9 theorem: a successful do-update call on the
one-builder store attaches a clause dispatching as `on_conflict_do_update`. -/
theorem conflict_action_dispatch_keys_witness :
    ((Insert.on_conflict_do_update coerceW storeW 0 none none
        (.dict [(.name "id", .lit 5)]) none).1.builders.getD 1
        default).post_values_clause.map ConflictAction.visit_name
      = some "on_conflict_do_update" :=
  (conflict_action_dispatch_keys coerceW storeW 0 none none
      (.dict [(.name "id", .lit 5)]) none).2.2.2.1 1 rfl

/-- C10: the target-mode choice tests `index_elements is not None` only, so
the empty sequence still selects the inferred mode: actions built with
`index_elements=[]` by either entry point have no constraint target, inferred
elements equal to the empty sequence, and the supplied `index_where` stored. -/
theorem empty_index_elements_select_inferred_mode
    (coerce : SetKey → Except CoercionError ColumnRef) (iw : Option Expr)
    (s : SetArg) (w : Option Expr) :
    ((OnConflictDoNothing.init (some []) iw).constraint_target = none
      ∧ (OnConflictDoNothing.init (some []) iw).inferred_target_elements
          = some []
      ∧ (OnConflictDoNothing.init (some []) iw).inferred_target_whereclause
          = iw)
    ∧ (∀ act, OnConflictDoUpdate.init coerce (some []) iw s w = .ok act →
        act.constraint_target = none
        ∧ act.inferred_target_elements = some []
        ∧ act.inferred_target_whereclause = iw) := by
  refine ⟨⟨rfl, rfl, rfl⟩, ?_⟩
  intro act hact
  have h := (OnConflictDoUpdate.init_ok_inversion coerce (some []) iw s w act
    hact).1
  rw [show act.constraint_target = act.toOnConflictClause.constraint_target
      from rfl, h]
  exact ⟨rfl, rfl, rfl⟩

/-- Concrete instance of the C10 theorem with `index_elements=[]`,
`index_where=<lit 0>` and `set_={"id": 5}`. -/
theorem empty_index_elements_select_inferred_mode_witness :
    (OnConflictDoNothing.init (some [])
        (some (.lit 0))).inferred_target_elements = some []
    ∧ (actEmptyElementsW.constraint_target = none
       ∧ actEmptyElementsW.inferred_target_elements = some []
       ∧ actEmptyElementsW.inferred_target_whereclause = some (.lit 0)) :=
  ⟨(empty_index_elements_select_inferred_mode coerceW (some (.lit 0))
      (.dict [(.name "id", .lit 5)]) none).1.2.1,
   (empty_index_elements_select_inferred_mode coerceW (some (.lit 0))
      (.dict [(.name "id", .lit 5)]) none).2 actEmptyElementsW rfl⟩
